import Mathlib

/-!
Shallow embedding of the krustlet state-machine engine
(`crates/kubelet/src/state.rs`) and its one plugin state
(`crates/wasi-provider/src/states/completed.rs`).

Conventions of the embedding:
* `anyhow::Result<()>` becomes `Except String Unit`; an error description is a
  `String`.
* a Rust method taking `&mut S` becomes a function `S → ... → S × result`
  returning the updated context alongside its result.
* the associated `Manifest` type of the `ResourceState` trait becomes the type
  parameter `M`; the status/JSON payload type becomes the parameter `J`.
* `Box<dyn State<S>>` (dynamic dispatch) is erased to the record of the two
  trait methods closed over the boxed value.
-/

namespace KrustletState

mutual

/-- Models `StateHolder<S>` (state.rs:183-186): the private field
`state: Box<dyn State<S>>` erased to the trait object's two methods,
`next` and `json_status`, closed over the boxed value. -/
inductive StateHolder (S M J : Type) : Type where
  | mk :
      (S → M → S × Transition S M J) →
      (S → M → S × Except String J) →
      StateHolder S M J

/-- Models `Transition<S>` (state.rs:188-194): `Next` carries the new state
node, `Complete` carries `anyhow::Result<()>`. -/
inductive Transition (S M J : Type) : Type where
  | Next : StateHolder S M J → Transition S M J
  | Complete : Except String Unit → Transition S M J

end

/-- The dynamic `next` method of the held trait object (state.rs:232). -/
def StateHolder.runNext {S M J : Type} :
    StateHolder S M J → S → M → S × Transition S M J
  | .mk n _, s, m => n s m

/-- The dynamic `json_status` method of the held trait object
(state.rs:235-239). -/
def StateHolder.runJsonStatus {S M J : Type} :
    StateHolder S M J → S → M → S × Except String J
  | .mk _ j, s, m => j s m

/-- Models the trait `State<S>` (state.rs:228-240) for a concrete state kind
`T`: the dictionary of the two required methods. `next` consumes the boxed
node (`self: Box<Self>`) and may mutate the context; `json_status` borrows
the node and may mutate the context. -/
structure StateImpl (S M J T : Type) : Type where
  next : T → S → M → S × Transition S M J
  json_status : T → S → M → S × Except String J

/-- Models the coercion `Box::new(o)` to `Box<dyn State<S>>` used by the
factory (state.rs:210): the dictionary applied to the concrete node. -/
def StateImpl.box {S M J T : Type} (inst : StateImpl S M J T) (t : T) :
    StateHolder S M J :=
  StateHolder.mk (fun s m => inst.next t s m) (fun s m => inst.json_status t s m)

/-- Models the set of declared `TransitionTo` marker-trait impls
(state.rs:196-197): `TT I O` holds exactly when `impl TransitionTo<O> for I`
was declared. The marker trait has no methods, so a declaration is pure
evidence. -/
def TransitionDecls : Type 1 := Type → Type → Prop

/-- Models `Transition::next` (state.rs:206-211). The signature's bounds
`I: State<S>`, `O: State<S>` and the where-clause `I: TransitionTo<O>` become
the arguments `instI`, `instO` and `edge`, which the compiler resolves from the
declared impls. The consumed current node `_i` is unused, as in the source;
the body is `Transition::Next(StateHolder { state: Box::new(o) })`. -/
def Transition.next (TT : TransitionDecls) {S M J I O : Type}
    (_instI : StateImpl S M J I) (instO : StateImpl S M J O)
    (_edge : TT I O) (_i : I) (o : O) : Transition S M J :=
  Transition.Next (instO.box o)

/-- The transitions a client of the `state` module can construct through its
public interface: the public variant `Transition::Complete`, and the factory
`Transition::next` with a declared edge. `Transition::Next`'s payload
`StateHolder` has a private `state` field (state.rs:183-186; the compile_fail
doc test at state.rs:173-182 shows direct construction rejected), so the
factory is the only public path to `Next`. This predicate is the embedding of
that privacy boundary. -/
inductive Constructible (TT : TransitionDecls) {S M J : Type} :
    Transition S M J → Prop where
  | complete (r : Except String Unit) :
      Constructible TT (Transition.Complete r)
  | factory {I O : Type} (instI : StateImpl S M J I) (instO : StateImpl S M J O)
      (edge : TT I O) (i : I) (o : O) :
      Constructible TT (Transition.next TT instI instO edge i o)

/-- Models the trait `AsyncDrop` (state.rs:214-219): the asynchronous Cleanup
Hook consuming the resource state context. Its `async_drop` returns no data. -/
structure AsyncDrop (S : Type) : Type where
  async_drop : S → Unit

/-!
Kind-level model of trait resolution. `Transition::next::<I, O>` at context
`S` only type-checks when the trait environment holds `impl State<S> for I`,
`impl State<S> for O` and `impl TransitionTo<O> for I` (the bounds at
state.rs:206-209). To state which instantiations the compiler accepts, the
declared impls are modelled as finite lists over kind and context codes
(naturals standing for the concrete Rust types).
-/

/-- A trait environment: the declared `impl State<ctx> for kind` pairs and the
declared `impl TransitionTo<to> for from` pairs, over coded types. -/
structure TraitEnv : Type where
  stateImpls : List (Nat × Nat)
  transitionImpls : List (Nat × Nat)

/-- `impl State<c> for k` is declared. -/
def TraitEnv.hasStateImpl (e : TraitEnv) (k c : Nat) : Prop :=
  (k, c) ∈ e.stateImpls

/-- `impl TransitionTo<b> for a` is declared (an edge a → b, state.rs:196-197). -/
def TraitEnv.hasTransitionTo (e : TraitEnv) (a b : Nat) : Prop :=
  (a, b) ∈ e.transitionImpls

/-- The compiler accepts the call `Transition::next::<i, o>` at context `c`:
all three bounds of the signature (state.rs:206-209) resolve in `e`. -/
def TraitEnv.nextAccepted (e : TraitEnv) (c i o : Nat) : Prop :=
  e.hasStateImpl i c ∧ e.hasStateImpl o c ∧ e.hasTransitionTo i o

instance (e : TraitEnv) (k c : Nat) : Decidable (e.hasStateImpl k c) :=
  inferInstanceAs (Decidable ((k, c) ∈ e.stateImpls))

instance (e : TraitEnv) (a b : Nat) : Decidable (e.hasTransitionTo a b) :=
  inferInstanceAs (Decidable ((a, b) ∈ e.transitionImpls))

instance (e : TraitEnv) (c i o : Nat) : Decidable (e.nextAccepted c i o) :=
  inferInstanceAs (Decidable (_ ∧ _ ∧ _))

/-- Code for the doc examples' `TestState` kind. -/
def kTestState : Nat := 0

/-- Code for the doc example's `OtherState` kind (state.rs:120-121). -/
def kOtherState : Nat := 1

/-- Code for the doc examples' `PodState` context type. -/
def cPodState : Nat := 0

/-- Code for the doc example's `OtherPodState` context type (state.rs:123). -/
def cOtherPodState : Nat := 1

/-- The trait environment of the module doc's first example (state.rs:8-38):
`TestState: State<PodState>` with the self edge
`impl TransitionTo<TestState> for TestState` declared via the derive. -/
def selfEdgeEnv : TraitEnv :=
  { stateImpls := [(kTestState, cPodState)]
    transitionImpls := [(kTestState, kTestState)] }

/-- The trait environment of the compile_fail doc test at state.rs:76-107:
`TestState: State<PodState>` with the self edge left undeclared (the impl is
commented out), so `Transition::next(self, TestState)` is rejected. -/
def noSelfEdgeEnv : TraitEnv :=
  { stateImpls := [(kTestState, cPodState)]
    transitionImpls := [] }

/-- The trait environment of the compile_fail doc test at state.rs:110-163:
`TestState: State<PodState>`, `OtherState: State<OtherPodState>`, and the edge
`TestState → OtherState` declared; the call is rejected because the two kinds
implement `State` for different context types. -/
def mismatchEnv : TraitEnv :=
  { stateImpls := [(kTestState, cPodState), (kOtherState, cOtherPodState)]
    transitionImpls := [(kTestState, kOtherState)] }

/-!
The plugin state `Completed` (crates/wasi-provider/src/states/completed.rs).
Its context `PodState` and manifest `Pod` are types of the wasi-provider
crate, not in src/, so the embedding is generic over them (`PS`, `P`).
-/

/-- Modelled from the spec: the phase of a status patch (the upstream status
module's `Phase`, not in src/); the embedded code uses only `Succeeded`. -/
inductive Phase : Type where
  | Pending : Phase
  | Running : Phase
  | Succeeded : Phase
  | Failed : Phase
  | Unknown : Phase
deriving DecidableEq

/-- Modelled from the spec: the status patch a plugin state reports upstream
(`PodStatus`, not in src/), as built by `make_status` from a phase and a
message. -/
structure PodStatus : Type where
  phase : Phase
  message : String
deriving DecidableEq

/-- Modelled from the spec: `make_status` (not in src/) builds a status patch
from a phase and a message (completed.rs:19). -/
def make_status (p : Phase) (m : String) : PodStatus :=
  { phase := p, message := m }

/-- Models `pub struct Completed` (completed.rs:5-6). -/
structure Completed : Type where

/-- Models `impl State<PodState> for Completed` (completed.rs:8-21):
`next` returns `Transition::Complete(Ok(()))` and `json_status` returns
`Ok(make_status(Phase::Succeeded, "Completed"))`; neither touches the context
or the manifest (both are ignored by the source, `_pod_state`, `_pod`). -/
def Completed.stateImpl (PS P : Type) : StateImpl PS P PodStatus Completed where
  next := fun _ s _ => (s, Transition.Complete (Except.ok ()))
  json_status := fun _ s _ => (s, Except.ok (make_status Phase.Succeeded "Completed"))

/-!
The Driver Loop. The engine's loop itself is not part of src/ (only the
per-step contract and the Cleanup Hook trait are), so it is modelled from the
spec, with an explicit trace of the events a run emits.
-/

/-- The events observable during one run of the driver loop, in order: a
status patch delivered to the status sink, a status-derivation failure
report, and the invocation of the Cleanup Hook (`AsyncDrop::async_drop`,
whose unit result is recorded in the event). -/
inductive DriverEvent (J : Type) : Type where
  | patched : J → DriverEvent J
  | statusFailed : String → DriverEvent J
  | cleanup : Unit → DriverEvent J

/-- Whether an event is the Cleanup Hook invocation. -/
def DriverEvent.isCleanup {J : Type} : DriverEvent J → Bool
  | .cleanup _ => true
  | _ => false

/-- The event one `json_status` outcome contributes to the trace: a delivered
patch on success, a failure report on error. -/
def stepEvent {J : Type} : Except String J → DriverEvent J
  | Except.ok patch => DriverEvent.patched patch
  | Except.error e => DriverEvent.statusFailed e

/-- Modelled from the spec: the Driver Loop (spec §4.4) is not in src/; only
the `AsyncDrop` Cleanup Hook it invokes is declared there (state.rs:214-219).
Each step calls the current node's `json_status` (delivering the patch on
success, reporting the error and continuing on failure), then its `next`;
`Next` swaps in the new node and repeats, `Complete` exits the loop, after
which the Cleanup Hook consumes the context. `fuel` bounds the observed
steps (the engine imposes no maximum step count); a `none` outcome means the
run has not terminated within `fuel` steps and the Cleanup Hook has not yet
run. -/
def drive {S M J : Type} (hook : AsyncDrop S) :
    Nat → StateHolder S M J → S → M →
      List (DriverEvent J) × Option (Except String Unit)
  | 0, _, _, _ => ([], none)
  | fuel + 1, h, s, m =>
    match h.runJsonStatus s m with
    | (s1, js) =>
      match h.runNext s1 m with
      | (s2, Transition.Next h2) =>
        match drive hook fuel h2 s2 m with
        | (evs, out) => (stepEvent js :: evs, out)
      | (s2, Transition.Complete r) =>
        (stepEvent js :: [DriverEvent.cleanup (hook.async_drop s2)], some r)

/-!
Test fixtures: a concrete two-kind client state machine (in the shape of the
module doc's examples) used to instantiate the generic factory and driver in
the witness theorems. The context is `Nat`, the manifest `Unit`, the status
payload `PodStatus`.
-/

/-- Fixture state kind with one declared outgoing edge to `FixtureDone`; the
field distinguishes node values of the same kind. -/
structure FixtureStart : Type where
  tag : Nat

/-- Fixture state kind that completes immediately. -/
structure FixtureDone : Type where

/-- The fixture's declared `TransitionTo` impls: exactly
`impl TransitionTo<FixtureDone> for FixtureStart`. -/
def fixtureTT : TransitionDecls :=
  fun A B => A = FixtureStart ∧ B = FixtureDone

/-- The fixture's `impl State for FixtureDone`: completes with `Ok(())` and
reports a `Succeeded` status. -/
def fixtureDoneImpl : StateImpl Nat Unit PodStatus FixtureDone where
  next := fun _ s _ => (s, Transition.Complete (Except.ok ()))
  json_status := fun _ s _ => (s, Except.ok (make_status Phase.Succeeded "Done"))

/-- The fixture's `impl State for FixtureStart`: its `json_status` always
fails; its `next` completes (declaring an edge does not oblige a state to use
it, and the factory never calls the consumed node's methods). -/
def fixtureStartImpl : StateImpl Nat Unit PodStatus FixtureStart where
  next := fun _ s _ => (s, Transition.Complete (Except.ok ()))
  json_status := fun _ s _ => (s, Except.error "status unavailable")

/-- A transition built by the factory over the fixture's declared edge: the
concrete `Next` value the witness theorems inspect. -/
def fixtureNextValue : Transition Nat Unit PodStatus :=
  Transition.next fixtureTT fixtureStartImpl fixtureDoneImpl
    ⟨rfl, rfl⟩ ⟨0⟩ ⟨⟩

/-- The `Completed` plugin boxed as a trait object over the fixture's context
and manifest types, as the driver would hold it. -/
def completedHolder : StateHolder Nat Unit PodStatus :=
  (Completed.stateImpl Nat Unit).box ⟨⟩

/-- A Cleanup Hook for the fixture's context. -/
def natHook : AsyncDrop Nat :=
  { async_drop := fun _ => () }

/-- The event a `json_status` outcome contributes is never the cleanup
event. -/
theorem stepEvent_not_cleanup {J : Type} (js : Except String J) :
    (stepEvent js).isCleanup = false := by
  cases js <;> rfl

/-- The cleanup event is recognised as such. -/
theorem cleanup_isCleanup {J : Type} (u : Unit) :
    (DriverEvent.cleanup u : DriverEvent J).isCleanup = true := rfl

/-- C1: the transition factory `Transition::next(Box<A>, B)` is accepted only
when the edge `impl TransitionTo<B> for A` is declared — at `A = B` a
self-transition is accepted only when the self-edge was declared — and, with
both `State` impls at the shared context present, exactly when it is. -/
theorem transition_next_requires_declared_edge :
    (∀ (e : TraitEnv) (c i o : Nat),
        e.nextAccepted c i o → e.hasTransitionTo i o)
    ∧ (∀ (e : TraitEnv) (c a : Nat),
        ¬ e.hasTransitionTo a a → ¬ e.nextAccepted c a a)
    ∧ (∀ (e : TraitEnv) (c i o : Nat),
        e.hasStateImpl i c → e.hasStateImpl o c → e.hasTransitionTo i o →
          e.nextAccepted c i o) := by
  refine ⟨fun e c i o h => h.2.2, fun e c a hn h => hn h.2.2,
    fun e c i o h1 h2 h3 => ⟨h1, h2, h3⟩⟩

/-- The edge requirement at the module doc's examples: the accepted self-call
of state.rs:8-38 has its self-edge declared, and with the self-edge undeclared
(state.rs:76-107) the self-call is rejected. -/
theorem declared_edge_requirement_at_doc_examples :
    selfEdgeEnv.hasTransitionTo kTestState kTestState
    ∧ ¬ noSelfEdgeEnv.nextAccepted cPodState kTestState kTestState :=
  ⟨transition_next_requires_declared_edge.1 selfEdgeEnv cPodState
      kTestState kTestState (by decide),
   transition_next_requires_declared_edge.2.1 noSelfEdgeEnv cPodState
      kTestState (by decide)⟩

/-- C2: every constructible `Transition` value in the `Next` variant was
produced by the single factory `Transition::next` with a declared edge; the
privacy of `StateHolder`'s field leaves no other public path to `Next`. -/
theorem next_variant_only_from_factory {S M J : Type} (TT : TransitionDecls)
    (t : Transition S M J) (hc : Constructible TT t)
    (h : StateHolder S M J) (ht : t = Transition.Next h) :
    ∃ (I O : Type) (instI : StateImpl S M J I) (instO : StateImpl S M J O)
      (edge : TT I O) (i : I) (o : O),
      t = Transition.next TT instI instO edge i o := by
  cases hc with
  | complete r => exact absurd ht (fun hx => Transition.noConfusion hx)
  | factory instI instO edge i o => exact ⟨_, _, instI, instO, edge, i, o, rfl⟩

/-- The factory origin of the fixture's concrete `Next` value. -/
theorem next_only_from_factory_at_fixture :
    ∃ (I O : Type) (instI : StateImpl Nat Unit PodStatus I)
      (instO : StateImpl Nat Unit PodStatus O) (edge : fixtureTT I O)
      (i : I) (o : O),
      fixtureNextValue = Transition.next fixtureTT instI instO edge i o :=
  next_variant_only_from_factory fixtureTT fixtureNextValue
    (Constructible.factory fixtureStartImpl fixtureDoneImpl ⟨rfl, rfl⟩ ⟨0⟩ ⟨⟩)
    (fixtureDoneImpl.box ⟨⟩) rfl

/-- C3: `Transition` is a tagged union with exactly the two variants `Next`
(carrying a state node) and `Complete` (carrying an outcome that is success
with no payload or failure with an error description); every value is exactly
one of the two. -/
theorem transition_exactly_two_variants {S M J : Type} :
    (∀ t : Transition S M J,
        (∃ h, t = Transition.Next h) ∨ (∃ r, t = Transition.Complete r))
    ∧ (∀ t : Transition S M J,
        ¬ ((∃ h, t = Transition.Next h) ∧ (∃ r, t = Transition.Complete r)))
    ∧ (∀ r : Except String Unit,
        r = Except.ok () ∨ ∃ msg : String, r = Except.error msg) := by
  refine ⟨?_, ?_, ?_⟩
  · intro t
    cases t with
    | Next h => exact Or.inl ⟨h, rfl⟩
    | Complete r => exact Or.inr ⟨r, rfl⟩
  · rintro t ⟨⟨h, rfl⟩, ⟨r, hr⟩⟩
    exact Transition.noConfusion hr
  · intro r
    cases r with
    | ok u => exact Or.inl rfl
    | error e => exact Or.inr ⟨e, rfl⟩

/-- C4: the factory accepts a current node and a successor only when both
kinds implement `State` for one and the same context type; in the doc's
mismatched example (`TestState: State<PodState>`,
`OtherState: State<OtherPodState>`, state.rs:110-163) no context type makes
the call acceptable even though the edge is declared. -/
theorem transition_next_requires_shared_context :
    (∀ (e : TraitEnv) (c i o : Nat),
        e.nextAccepted c i o → e.hasStateImpl i c ∧ e.hasStateImpl o c)
    ∧ (∀ c : Nat, ¬ mismatchEnv.nextAccepted c kTestState kOtherState) := by
  constructor
  · exact fun e c i o h => ⟨h.1, h.2.1⟩
  · intro c hacc
    obtain ⟨h1, h2, _⟩ := hacc
    simp [mismatchEnv, TraitEnv.hasStateImpl, kTestState, kOtherState,
      cPodState, cOtherPodState] at h1 h2
    omega

/-- The shared-context requirement at the accepted doc example: both sides of
the accepted self-call implement `State` for the one context `PodState`. -/
theorem shared_context_requirement_at_doc_example :
    selfEdgeEnv.hasStateImpl kTestState cPodState
    ∧ selfEdgeEnv.hasStateImpl kTestState cPodState :=
  transition_next_requires_shared_context.1 selfEdgeEnv cPodState
    kTestState kTestState (by decide)

/-- C5: for every declared edge and all input nodes, the factory's only
observable result is the returned `Transition::Next` holding the boxed
successor: the embedding takes no context or manifest (the Rust signature
receives neither) and the call equals the bare constructor application, so
nothing beyond the successor's ownership wrapper is produced or touched. -/
theorem transition_next_no_side_effect (TT : TransitionDecls)
    {S M J I O : Type} (instI : StateImpl S M J I) (instO : StateImpl S M J O)
    (edge : TT I O) (i : I) (o : O) :
    Transition.next TT instI instO edge i o = Transition.Next (instO.box o) :=
  rfl

/-- The factory applied over the fixture's declared edge is exactly the `Next`
value holding the boxed successor. -/
theorem no_side_effect_at_fixture :
    Transition.next fixtureTT fixtureStartImpl fixtureDoneImpl ⟨rfl, rfl⟩
        ⟨0⟩ ⟨⟩
      = Transition.Next (fixtureDoneImpl.box ⟨⟩) :=
  transition_next_no_side_effect fixtureTT fixtureStartImpl fixtureDoneImpl
    ⟨rfl, rfl⟩ ⟨0⟩ ⟨⟩

/-- C6: invoking `json_status` leaves the resource state context unchanged:
for the repository's concrete state implementation `Completed`
(completed.rs:14-20, the one plugin state in the sources), the returned
context equals the context passed in, for every node, context and manifest. -/
theorem json_status_preserves_context :
    ∀ (PS P : Type) (self : Completed) (s : PS) (p : P),
      ((Completed.stateImpl PS P).json_status self s p).1 = s :=
  fun _ _ _ _ _ => rfl

/-- C7: in every terminating run of the driver loop the Cleanup Hook is
invoked exactly once — the trace holds exactly one cleanup event — and after
the terminal `Transition` result: the trace is a cleanup-free prefix followed
by the final cleanup event, whatever the outcome `r`. -/
theorem cleanup_invoked_exactly_once {S M J : Type} (hook : AsyncDrop S)
    (fuel : Nat) (h : StateHolder S M J) (s : S) (m : M)
    (evs : List (DriverEvent J)) (r : Except String Unit)
    (hrun : drive hook fuel h s m = (evs, some r)) :
    List.countP (fun e => e.isCleanup) evs = 1
    ∧ ∃ front : List (DriverEvent J),
        evs = front ++ [DriverEvent.cleanup ()]
        ∧ List.countP (fun e => e.isCleanup) front = 0 := by
  induction fuel generalizing h s evs with
  | zero =>
    simp [drive] at hrun
  | succ fuel ih =>
    rcases hjs : h.runJsonStatus s m with ⟨s1, js⟩
    rcases hst : h.runNext s1 m with ⟨s2, tr⟩
    simp only [drive, hjs, hst] at hrun
    cases tr with
    | Next h2 =>
      rcases hrec : drive hook fuel h2 s2 m with ⟨evs2, out⟩
      simp only [hrec, Prod.mk.injEq] at hrun
      obtain ⟨hevs, hout⟩ := hrun
      subst hevs
      obtain ⟨hcount, front, hfront, hfcount⟩ :=
        ih h2 s2 evs2 (by rw [hrec, hout])
      refine ⟨?_, stepEvent js :: front, by simp [hfront], ?_⟩
      · simp [List.countP_cons, stepEvent_not_cleanup, hcount]
      · simp [List.countP_cons, stepEvent_not_cleanup, hfcount]
    | Complete rr =>
      simp only [Prod.mk.injEq] at hrun
      obtain ⟨hevs, _⟩ := hrun
      subst hevs
      refine ⟨?_, [stepEvent js], rfl, ?_⟩
      · simp [List.countP_cons, stepEvent_not_cleanup, cleanup_isCleanup]
      · simp [List.countP_cons, stepEvent_not_cleanup]

/-- A concrete terminating run: driving the `Completed` plugin emits its
status patch and then the one final cleanup event. -/
theorem cleanup_once_for_completed_run :
    List.countP (fun e => e.isCleanup)
        [DriverEvent.patched (make_status Phase.Succeeded "Completed"),
          DriverEvent.cleanup ()] = 1
    ∧ ∃ front : List (DriverEvent PodStatus),
        [DriverEvent.patched (make_status Phase.Succeeded "Completed"),
          DriverEvent.cleanup ()] = front ++ [DriverEvent.cleanup ()]
        ∧ List.countP (fun e => e.isCleanup) front = 0 :=
  cleanup_invoked_exactly_once natHook 1 completedHolder 0 ()
    [DriverEvent.patched (make_status Phase.Succeeded "Completed"),
      DriverEvent.cleanup ()] (Except.ok ()) rfl

/-- C8: for every context value and manifest, `Completed::next` returns
`Transition::Complete(Ok(()))` — never a `Next` variant, never a failure —
and leaves the context unchanged. -/
theorem completed_next_returns_complete_ok :
    ∀ (PS P : Type) (self : Completed) (s : PS) (p : P),
      (Completed.stateImpl PS P).next self s p
        = (s, Transition.Complete (Except.ok ())) :=
  fun _ _ _ _ _ => rfl

/-- C9: the factory's result is independent of the consumed current node: for
any two input nodes of the same kind (and any edge evidence), the returned
transitions are equal — determined solely by the successor node. -/
theorem transition_next_ignores_consumed_node (TT : TransitionDecls)
    {S M J I O : Type} (instI : StateImpl S M J I) (instO : StateImpl S M J O)
    (edge edge' : TT I O) (i1 i2 : I) (o : O) :
    Transition.next TT instI instO edge i1 o
      = Transition.next TT instI instO edge' i2 o :=
  rfl

/-- Two distinct fixture input nodes produce the same transition. -/
theorem consumed_node_irrelevant_at_fixture :
    Transition.next fixtureTT fixtureStartImpl fixtureDoneImpl ⟨rfl, rfl⟩
        ⟨0⟩ ⟨⟩
      = Transition.next fixtureTT fixtureStartImpl fixtureDoneImpl ⟨rfl, rfl⟩
        ⟨1⟩ ⟨⟩ :=
  transition_next_ignores_consumed_node fixtureTT fixtureStartImpl
    fixtureDoneImpl ⟨rfl, rfl⟩ ⟨rfl, rfl⟩ ⟨0⟩ ⟨1⟩ ⟨⟩

/-- C10: for every context value and manifest, `Completed::json_status` never
returns an error: it returns `Ok` of the status built from phase `Succeeded`
and the message "Completed" (and leaves the context unchanged). -/
theorem completed_json_status_never_errors :
    ∀ (PS P : Type) (self : Completed) (s : PS) (p : P),
      (Completed.stateImpl PS P).json_status self s p
        = (s, Except.ok (make_status Phase.Succeeded "Completed")) :=
  fun _ _ _ _ _ => rfl

end KrustletState
